import Mathlib

/-!
# Verification of the DC-TRADE-ENGINE live trading orchestration core

Shallow embedding of the trading core of the repository:

* `src/tradeengine/trading/risk_manager.py`      — `RiskManager`
* `src/tradeengine/trading/position_manager.py`  — `PositionManager`
* `src/tradeengine/trading/paper_executor.py`    — `PaperExecutor`
* `src/tradeengine/trading/engine.py`            — `LiveTradingEngine._evaluate_signals`
* `src/tradeengine/dashboard/bot_manager.py`     — `BotManager` (CRUD, webhook
  signal execution, start/stop, auto-restart)

Python floats are modelled as rationals (`ℚ`), Python dicts either as
association functions `String → Option α` or as total functions with the
`.get(k, default)` default baked in, and fallible calls as `Except`/`Option`
results.  I/O effects (logging, persistence, timestamps, display-string
formatting) are omitted; everything that feeds back into control flow or into
the recorded data the claims mention is kept.
-/

namespace TradeEngine

/-- Python's `round(x, n)`: round half to even at `n` decimal digits,
modelling the float value as an exact rational. -/
def pyRoundTo (n : ℕ) (x : ℚ) : ℚ :=
  let scaled : ℚ := x * (10 : ℚ) ^ n
  let f : ℤ := ⌊scaled⌋
  let frac : ℚ := scaled - (f : ℚ)
  let r : ℤ :=
    if frac < 1 / 2 then f
    else if 1 / 2 < frac then f + 1
    else if f % 2 = 0 then f else f + 1
  (r : ℚ) / (10 : ℚ) ^ n

/-- Python's `int(x)` on a float: truncation toward zero. -/
def pyInt (x : ℚ) : ℤ :=
  if x < 0 then -⌊-x⌋ else ⌊x⌋

/-- Python's `a or b` for an optional float `a`: `b` when `a` is `None`
or equal to `0` (falsy), else the value of `a`. -/
def pyOr (a : Option ℚ) (b : ℚ) : ℚ :=
  match a with
  | none => b
  | some x => if x = 0 then b else x

/-- Python's `s.split(sep)` for a one-character separator, on the string's
character list (the built-in `String.splitOn` is not kernel-reducible). -/
def strSplitOnChar (sep : Char) (s : String) : List String :=
  (s.data.splitOn sep).map fun cs => String.mk cs

/-- Python's `s.lower()`. -/
def strToLower (s : String) : String :=
  String.mk (s.data.map Char.toLower)

/-- Python's `s.strip()`: drop whitespace from both ends. -/
def strStrip (s : String) : String :=
  String.mk ((s.data.dropWhile Char.isWhitespace).reverse.dropWhile Char.isWhitespace).reverse

/-- `pat` occurs as a contiguous run inside `s`. -/
def charsContain (pat : List Char) : List Char → Bool
  | [] => pat.isEmpty
  | c :: rest => pat.isPrefixOf (c :: rest) || charsContain pat rest

/-- Python's `pat in s` substring test. -/
def strContains (s pat : String) : Bool :=
  charsContain pat.data s.data

/-! ## RiskManager (`src/tradeengine/trading/risk_manager.py`) -/

/-- `RiskConfig` — the fields the embedded code paths read. -/
structure RiskConfig where
  max_drawdown_pct : ℚ := 20
  max_position_pct : ℚ := 95
  default_sl_pct : Option ℚ := none
  default_tp_pct : Option ℚ := none
  deriving Repr, DecidableEq

/-- `RiskManager` state: config, initial capital, running peak, halted flag. -/
structure RiskManager where
  config : RiskConfig
  initial_capital : ℚ
  peak_capital : ℚ
  halted : Bool
  deriving Repr, DecidableEq

/-- `RiskManager.__init__(config, initial_capital)`. -/
def RiskManager.mk' (config : RiskConfig) (initial_capital : ℚ) : RiskManager :=
  { config := config
    initial_capital := initial_capital
    peak_capital := initial_capital
    halted := false }

/-- `RiskManager.update(current_capital)`: raise the peak if exceeded, then
set the halted flag when the drawdown from the (new) peak reaches the
configured maximum. -/
def RiskManager.update (rm : RiskManager) (current_capital : ℚ) : RiskManager :=
  let peak := if current_capital > rm.peak_capital then current_capital else rm.peak_capital
  let drawdown_pct := (1 - current_capital / peak) * 100
  if drawdown_pct ≥ rm.config.max_drawdown_pct then
    { rm with peak_capital := peak, halted := true }
  else
    { rm with peak_capital := peak }

/-- `RiskManager.should_halt()`. -/
def RiskManager.should_halt (rm : RiskManager) : Bool := rm.halted

/-- `RiskManager.calculate_position_size(capital, price)`. -/
def RiskManager.calculate_position_size (rm : RiskManager) (capital price : ℚ) : ℚ :=
  let max_capital := capital * (rm.config.max_position_pct / 100)
  max_capital / price

/-- Trading side, from `Side` in `src/tradeengine/data/models.py`. -/
inductive Side where
  | long
  | short
  deriving Repr, DecidableEq

/-- `RiskManager.check_stop_loss(entry_price, current_price, side)`. -/
def RiskManager.check_stop_loss (rm : RiskManager) (entry_price current_price : ℚ)
    (side : Side) : Bool :=
  match rm.config.default_sl_pct with
  | none => false
  | some sl =>
    let sl_pct := sl / 100
    match side with
    | .long => current_price ≤ entry_price * (1 - sl_pct)
    | .short => current_price ≥ entry_price * (1 + sl_pct)

/-- `RiskManager.check_take_profit(entry_price, current_price, side)`. -/
def RiskManager.check_take_profit (rm : RiskManager) (entry_price current_price : ℚ)
    (side : Side) : Bool :=
  match rm.config.default_tp_pct with
  | none => false
  | some tp =>
    let tp_pct := tp / 100
    match side with
    | .long => current_price ≥ entry_price * (1 + tp_pct)
    | .short => current_price ≤ entry_price * (1 - tp_pct)

/-- `RiskManager.reset()`. -/
def RiskManager.reset (rm : RiskManager) : RiskManager :=
  { rm with halted := false, peak_capital := rm.initial_capital }

/-! ## PositionManager (`src/tradeengine/trading/position_manager.py`) -/

/-- Open position, from `Position` in `src/tradeengine/data/models.py`
(the fields the embedded code paths read; timestamps omitted). -/
structure Position where
  symbol : String
  side : Side
  entry_price : ℚ
  size : ℚ
  unrealized_pnl : ℚ := 0
  stop_loss : Option ℚ := none
  take_profit : Option ℚ := none
  deriving Repr, DecidableEq

/-- A record appended to `PositionManager._trade_history` by `close_position`
(timestamps omitted).  `pnl_pct` and `pnl_usd` hold the values the code
stores: `round(pnl_pct, 2)` and `round(pnl_usd, 4)`. -/
structure PMTrade where
  symbol : String
  side : Side
  entry_price : ℚ
  exit_price : ℚ
  size : ℚ
  pnl_pct : ℚ
  pnl_usd : ℚ
  deriving Repr, DecidableEq

/-- `PositionManager` state: the `_positions` dict (as a map from symbol to
optional position) and the `_trade_history` list. -/
structure PositionManager where
  positions : String → Option Position
  trade_history : List PMTrade

/-- `PositionManager()` constructor: empty table, empty history. -/
def PositionManager.empty : PositionManager :=
  { positions := fun _ => none, trade_history := [] }

/-- `PositionManager.open_position(symbol, side, entry_price, size, ...)`:
builds the `Position` and stores it under `symbol` (overwriting any
previous entry, as a Python dict assignment does). -/
def PositionManager.open_position (pm : PositionManager) (symbol : String)
    (side : Side) (entry_price size : ℚ)
    (stop_loss : Option ℚ := none) (take_profit : Option ℚ := none) :
    Position × PositionManager :=
  let pos : Position :=
    { symbol := symbol
      side := side
      entry_price := entry_price
      size := size
      stop_loss := stop_loss
      take_profit := take_profit }
  (pos, { pm with positions := fun s => if s = symbol then some pos else pm.positions s })

/-- `PositionManager.close_position(symbol, exit_price)`: pops the position,
computes PnL (long: `(exit-entry)/entry*100`, `(exit-entry)*size`; short:
signs inverted), appends the trade record with the rounded values, and
returns it.  Returns `none` with the state unchanged when no position is
open for the symbol. -/
def PositionManager.close_position (pm : PositionManager) (symbol : String)
    (exit_price : ℚ) : Option PMTrade × PositionManager :=
  match pm.positions symbol with
  | none => (none, pm)
  | some pos =>
    let pnl_pct :=
      match pos.side with
      | .long => (exit_price - pos.entry_price) / pos.entry_price * 100
      | .short => (pos.entry_price - exit_price) / pos.entry_price * 100
    let pnl_usd :=
      match pos.side with
      | .long => (exit_price - pos.entry_price) * pos.size
      | .short => (pos.entry_price - exit_price) * pos.size
    let trade : PMTrade :=
      { symbol := symbol
        side := pos.side
        entry_price := pos.entry_price
        exit_price := exit_price
        size := pos.size
        pnl_pct := pyRoundTo 2 pnl_pct
        pnl_usd := pyRoundTo 4 pnl_usd }
    (some trade,
      { positions := fun s => if s = symbol then none else pm.positions s
        trade_history := pm.trade_history ++ [trade] })

/-- `PositionManager.has_position(symbol)`. -/
def PositionManager.has_position (pm : PositionManager) (symbol : String) : Bool :=
  (pm.positions symbol).isSome

/-- `PositionManager.get_position(symbol)`. -/
def PositionManager.get_position (pm : PositionManager) (symbol : String) :
    Option Position :=
  pm.positions symbol

/-! ## PaperExecutor (`src/tradeengine/trading/paper_executor.py`) -/

/-- Entry of `PaperExecutor._positions` (the executor's own tracking dict,
with string sides `"long"`/`"short"` as in the source). -/
structure PaperPos where
  side : String
  size : ℚ
  entry_price : ℚ
  deriving Repr, DecidableEq

/-- An order record appended to `PaperExecutor._orders` (timestamp omitted;
`type` is always `"MARKET"` and `status` always `"FILLED"` on this path). -/
structure PaperOrder where
  orderId : ℕ
  symbol : String
  side : String
  size : ℚ
  price : ℚ
  fee : ℚ
  deriving Repr, DecidableEq

/-- `PaperExecutor` state.  `balances` models `self._balances.get(asset, 0)`:
a total function with the missing-key default `0` baked in; likewise
`current_prices` models `self._current_prices.get(symbol, 0.0)`. -/
structure PaperExecutor where
  balances : String → ℚ
  order_counter : ℕ
  orders : List PaperOrder
  positions : String → Option PaperPos
  current_prices : String → ℚ
  quote_asset : String

/-- `PaperExecutor.__init__(initial_balance, quote_asset)`. -/
def PaperExecutor.mk' (initial_balance : ℚ) (quote_asset : String := "USDT") :
    PaperExecutor :=
  { balances := fun a => if a = quote_asset then initial_balance else 0
    order_counter := 0
    orders := []
    positions := fun _ => none
    current_prices := fun _ => 0
    quote_asset := quote_asset }

/-- `PaperExecutor.set_price(symbol, price)`. -/
def PaperExecutor.set_price (ex : PaperExecutor) (symbol : String) (price : ℚ) :
    PaperExecutor :=
  { ex with current_prices := fun s => if s = symbol then price else ex.current_prices s }

/-- `base = symbol.split("_")[0]`,
`quote = symbol.split("_")[1] if "_" in symbol else self.quote_asset`. -/
def parseBaseQuote (symbol quote_asset : String) : String × String :=
  match strSplitOnChar '_' symbol with
  | b :: q :: _ => (b, q)
  | [b] => (b, quote_asset)
  | [] => ("", quote_asset)

/-- `PaperExecutor._update_position(symbol, side, size, price)`. -/
def PaperExecutor.update_position (positions : String → Option PaperPos)
    (symbol side : String) (size price : ℚ) : String → Option PaperPos :=
  match positions symbol with
  | none =>
    let newPos : PaperPos :=
      if side = "BUY" then { side := "long", size := size, entry_price := price }
      else { side := "short", size := size, entry_price := price }
    fun s => if s = symbol then some newPos else positions s
  | some pos =>
    if (pos.side = "long" ∧ side = "SELL") ∨ (pos.side = "short" ∧ side = "BUY") then
      if size ≥ pos.size then fun s => if s = symbol then none else positions s
      else fun s => if s = symbol then some { pos with size := pos.size - size } else positions s
    else
      let total_cost := pos.entry_price * pos.size + price * size
      let newPos : PaperPos :=
        { side := pos.side, size := pos.size + size, entry_price := total_cost / (pos.size + size) }
      fun s => if s = symbol then some newPos else positions s

/-- `PaperExecutor.place_market_order(symbol, side, size)`.

Returns the result (`ValueError` messages abstracted to tags) together with
the post-call state.  As in the source, the order counter is incremented
before the balance check, so a rejected order still consumes a counter
value, while the raise on a missing price happens before the increment.
Both balance mutations of a fill happen in the same step; a rejected order
mutates no balance. -/
def PaperExecutor.place_market_order (ex : PaperExecutor) (symbol side : String)
    (size : ℚ) : Except String PaperOrder × PaperExecutor :=
  let price := ex.current_prices symbol
  if price ≤ 0 then (.error "no price available", ex)
  else
    let order_counter := ex.order_counter + 1
    let (base, quote) := parseBaseQuote symbol ex.quote_asset
    let cost := size * price
    let fee := cost * (5 / 10000)
    if side = "BUY" then
      if ex.balances quote < cost + fee then
        (.error "insufficient quote balance", { ex with order_counter := order_counter })
      else
        let b1 := fun a => if a = quote then ex.balances quote - cost - fee else ex.balances a
        let b2 := fun a => if a = base then b1 base + size else b1 a
        let order : PaperOrder :=
          { orderId := order_counter, symbol := symbol, side := side
            size := size, price := price, fee := fee }
        (.ok order,
          { ex with
              balances := b2
              order_counter := order_counter
              orders := ex.orders ++ [order]
              positions := PaperExecutor.update_position ex.positions symbol side size price })
    else
      if ex.balances base < size then
        (.error "insufficient base balance", { ex with order_counter := order_counter })
      else
        let b1 := fun a => if a = base then ex.balances base - size else ex.balances a
        let b2 := fun a => if a = quote then b1 quote + cost - fee else b1 a
        let order : PaperOrder :=
          { orderId := order_counter, symbol := symbol, side := side
            size := size, price := price, fee := fee }
        (.ok order,
          { ex with
              balances := b2
              order_counter := order_counter
              orders := ex.orders ++ [order]
              positions := PaperExecutor.update_position ex.positions symbol side size price })

/-- `PaperExecutor.get_balance(asset)`. -/
def PaperExecutor.get_balance (ex : PaperExecutor) (asset : String) : ℚ :=
  ex.balances asset

/-! ## LiveTradingEngine signal evaluation (`src/tradeengine/trading/engine.py`) -/

/-- The four boolean flags the strategy produces for the latest bar. -/
structure Signals where
  entries_long : Bool
  exits_long : Bool
  entries_short : Bool
  exits_short : Bool
  deriving Repr, DecidableEq

/-- The trade decision `_evaluate_signals` arrives at for one evaluation
cycle (the order placement and bookkeeping it then triggers are the
`_open_position`/`_close_position` helpers). -/
inductive EvalAction where
  | none
  | openPos (side : Side)
  | closePos
  deriving Repr, DecidableEq

/-- `LiveTradingEngine._evaluate_signals`, reduced to its decision:
halt check first, then the minimum-history check, then the decision table
(exit signal, then stop-loss, then take-profit for an open position;
long entry before short entry otherwise).  The candle refresh and the
DataFrame assembly are I/O plumbing that only feed the strategy, whose
output is the `signals` argument here. -/
def evaluateSignals (rm : RiskManager) (bufferLen : ℕ) (pos : Option Position)
    (signals : Signals) (current_price : ℚ) : EvalAction :=
  if rm.should_halt then .none
  else if bufferLen < 50 then .none
  else
    match pos with
    | some p =>
      if p.side = .long ∧ signals.exits_long then .closePos
      else if p.side = .short ∧ signals.exits_short then .closePos
      else if rm.check_stop_loss p.entry_price current_price p.side then .closePos
      else if rm.check_take_profit p.entry_price current_price p.side then .closePos
      else .none
    | none =>
      if signals.entries_long then .openPos .long
      else if signals.entries_short then .openPos .short
      else .none

/-! ## BotManager (`src/tradeengine/dashboard/bot_manager.py`) -/

/-- One record of a bot's `trade_history` ring buffer, as written by
`_record_webhook_trade` (timestamp omitted).  `pnl` holds `round(pnl, 4)`. -/
structure WebhookTrade where
  action : String
  price : Option ℚ
  pnl : ℚ
  deriving Repr, DecidableEq

/-- `BotConfig` — the fields the embedded code paths read or write
(persistence-only fields omitted). -/
structure BotConfig where
  bot_id : String
  user_id : String := ""
  name : String := ""
  strategy : String := ""
  symbol : String := ""
  timeframe : String := ""
  capital : ℚ := 10000
  paper_mode : Bool := true
  sl_pct : Option ℚ := none
  tp_pct : Option ℚ := none
  max_drawdown_pct : ℚ := 20
  status : String := "stopped"
  signal_source : String := "strategy"
  webhook_token : String := ""
  total_pnl : ℚ := 0
  total_trades : ℕ := 0
  win_rate : ℚ := 0
  trade_history : List WebhookTrade := []
  error_msg : String := ""
  auto_start : Bool := false
  deriving Repr, DecidableEq

/-- The in-memory webhook position shadow
(`self._webhook_positions[bot_id] = {"side": None, "entry_price": 0.0, "size": 0.0}`). -/
structure WebhookPos where
  side : Option Side
  entry_price : ℚ
  size : ℚ
  deriving Repr, DecidableEq

/-- `BotManager._calc_webhook_pnl(pos, exit_price, side)`: zero when the
entry price or exit price is falsy, else the signed difference scaled by
the position size (the `/entry*size*entry` in the source cancels to
`*size` but is kept as written). -/
def calcWebhookPnl (pos : WebhookPos) (exit_price : ℚ) (side : Side) : ℚ :=
  if pos.entry_price = 0 ∨ exit_price = 0 then 0
  else
    match side with
    | .long => (exit_price - pos.entry_price) / pos.entry_price * pos.size * pos.entry_price
    | .short => (pos.entry_price - exit_price) / pos.entry_price * pos.size * pos.entry_price

/-- `BotManager._record_webhook_trade(bot, action, price, pnl)`: add the PnL,
bump the trade count, recompute the win rate incrementally with Python
`int` truncation, append the trade record, and trim the history to its
most recent 50 entries. -/
def recordWebhookTrade (bot : BotConfig) (action : String) (price : Option ℚ)
    (pnl : ℚ) : BotConfig :=
  let total_pnl := bot.total_pnl + pnl
  let total_trades := bot.total_trades + 1
  let wins : ℤ :=
    if pnl > 0 then pyInt (bot.win_rate / 100 * (total_trades - 1)) + 1
    else pyInt (bot.win_rate / 100 * (total_trades - 1))
  let win_rate : ℚ :=
    if total_trades > 0 then (wins : ℚ) / (total_trades : ℚ) * 100 else 0
  let trade : WebhookTrade := { action := action, price := price, pnl := pyRoundTo 4 pnl }
  let history := bot.trade_history ++ [trade]
  let history := if history.length > 50 then history.drop (history.length - 50) else history
  { bot with
      total_pnl := total_pnl
      total_trades := total_trades
      win_rate := win_rate
      trade_history := history }

/-- Result of `BotManager.execute_webhook_signal`, reduced to the fields the
claims inspect: the status string and the `actions` list. -/
structure WebhookResult where
  status : String
  actions : List String
  deriving Repr, DecidableEq

/-- `BotManager.execute_webhook_signal(token, action, price)`, after the
token lookup: the bot the token resolved to is passed directly, and
`executor_ready` stands for `bot_id ∈ self._webhook_executors`.  Returns
the result together with the updated bot record and webhook position.
Timestamps, `last_signal` display strings and persistence are omitted. -/
def executeWebhookSignal (bot : BotConfig) (executor_ready : Bool)
    (pos : WebhookPos) (action : String) (price : Option ℚ) :
    WebhookResult × BotConfig × WebhookPos :=
  if bot.status ≠ "running" then ({ status := "rejected", actions := [] }, bot, pos)
  else if ¬ executor_ready then ({ status := "rejected", actions := [] }, bot, pos)
  else
    let action_lower := strStrip (strToLower action)
    if action_lower = "buy" then
      let (bot, pos, acts) :=
        if pos.side = some .short then
          let pnl := calcWebhookPnl pos (pyOr price 0) .short
          (recordWebhookTrade bot "close_short" price pnl, pos, ["closed_short"])
        else (bot, pos, [])
      let size := bot.capital / pyOr price 1
      let pos := { pos with side := some .long, entry_price := pyOr price 0, size := size }
      ({ status := "executed", actions := acts ++ ["opened_long"] }, bot, pos)
    else if action_lower = "sell" then
      let (bot, pos, acts) :=
        if pos.side = some .long then
          let pnl := calcWebhookPnl pos (pyOr price 0) .long
          (recordWebhookTrade bot "close_long" price pnl, pos, ["closed_long"])
        else (bot, pos, [])
      let size := bot.capital / pyOr price 1
      let pos := { pos with side := some .short, entry_price := pyOr price 0, size := size }
      ({ status := "executed", actions := acts ++ ["opened_short"] }, bot, pos)
    else if action_lower = "close" ∨ action_lower = "close_long" ∨ action_lower = "close_short" then
      match pos.side with
      | some side =>
        let pnl := calcWebhookPnl pos (pyOr price 0) side
        let bot := recordWebhookTrade bot "close" price pnl
        let pos : WebhookPos := { side := none, entry_price := 0, size := 0 }
        ({ status := "executed", actions := ["closed_position"] }, bot, pos)
      | none =>
        ({ status := "executed", actions := ["no_position"] }, bot, pos)
    else
      ({ status := "rejected", actions := [] }, bot, pos)

/-! ### Registry CRUD and lifecycle -/

/-- The bot registry `self._bots`, as a map from bot id to record. -/
structure BotRegistry where
  bots : String → Option BotConfig

/-- The inline ownership guard every owner-checked `BotManager` operation
repeats: `user_id and bot.user_id and bot.user_id != user_id`. -/
def ownershipMismatch (user_id bot_user_id : String) : Bool :=
  user_id ≠ "" && bot_user_id ≠ "" && bot_user_id ≠ user_id

/-- `BotManager.get_bot(bot_id, user_id)`. -/
def BotRegistry.get_bot (st : BotRegistry) (bot_id : String) (user_id : String := "") :
    Option BotConfig :=
  match st.bots bot_id with
  | none => none
  | some bot =>
    if ownershipMismatch user_id bot.user_id then none else some bot

/-- `BotManager.delete_bot(bot_id, user_id)`: `False` when the bot does not
exist, when another user owns it, or when it is running; otherwise the bot
is removed and the call returns `True`. -/
def BotRegistry.delete_bot (st : BotRegistry) (bot_id : String)
    (user_id : String := "") : Bool × BotRegistry :=
  match st.bots bot_id with
  | none => (false, st)
  | some bot =>
    if ownershipMismatch user_id bot.user_id then (false, st)
    else if bot.status = "running" then (false, st)
    else (true, { bots := fun b => if b = bot_id then none else st.bots b })

/-- One `key=value` item of the `**updates` keyword arguments of
`BotManager.update_bot`, restricted to its `allowed` key set (an unknown
key is simply ignored by the source, so it never reaches the record;
`params` updates are omitted from the model). -/
inductive BotUpdate where
  | name (v : String)
  | strategy (v : String)
  | symbol (v : String)
  | timeframe (v : String)
  | capital (v : ℚ)
  | paper_mode (v : Bool)
  | sl_pct (v : Option ℚ)
  | tp_pct (v : Option ℚ)
  deriving Repr, DecidableEq

/-- `setattr(bot, key, val)` for one allowed update. -/
def applyBotUpdate (bot : BotConfig) : BotUpdate → BotConfig
  | .name v => { bot with name := v }
  | .strategy v => { bot with strategy := v }
  | .symbol v => { bot with symbol := v }
  | .timeframe v => { bot with timeframe := v }
  | .capital v => { bot with capital := v }
  | .paper_mode v => { bot with paper_mode := v }
  | .sl_pct v => { bot with sl_pct := v }
  | .tp_pct v => { bot with tp_pct := v }

/-- `BotManager.update_bot(bot_id, user_id, **updates)`: `None` when the bot
does not exist, when another user owns it, or when it is running;
otherwise the allowed updates are applied and the updated record is
returned. -/
def BotRegistry.update_bot (st : BotRegistry) (bot_id : String) (user_id : String)
    (updates : List BotUpdate) : Option BotConfig × BotRegistry :=
  match st.bots bot_id with
  | none => (none, st)
  | some bot =>
    if ownershipMismatch user_id bot.user_id then (none, st)
    else if bot.status = "running" then (none, st)
    else
      let bot := updates.foldl applyBotUpdate bot
      (some bot, { bots := fun b => if b = bot_id then some bot else st.bots b })

/-- `BotManager.stop_bot(bot_id, user_id)`: `False` when the bot does not
exist or another user owns it; otherwise the engine/task/webhook-executor
handles are released (runtime handles are not part of this state) and the
record is set to `stopped` with `auto_start` cleared, returning `True`. -/
def BotRegistry.stop_bot (st : BotRegistry) (bot_id : String)
    (user_id : String := "") : Bool × BotRegistry :=
  match st.bots bot_id with
  | none => (false, st)
  | some bot =>
    if ownershipMismatch user_id bot.user_id then (false, st)
    else
      let bot := { bot with status := "stopped", error_msg := "", auto_start := false }
      (true, { bots := fun b => if b = bot_id then some bot else st.bots b })

/-! ### `BotManager.start_bot` -/

/-- The valid `Timeframe` enum values (`src/tradeengine/data/models.py`);
`LiveTradingEngine.__init__` does `self.tf = Timeframe(timeframe)`, which
raises `ValueError` on any other string. -/
def validTimeframes : List String := ["1m", "5m", "15m", "30m", "1h", "4h", "1d"]

/-- The attribute names `LiveTradingEngine` objects expose
(`src/tradeengine/trading/engine.py`): the instance attributes set in
`__init__` and the methods of the class.  Looking up any other name
raises `AttributeError`.  In particular there is no `on_trade` hook. -/
def liveTradingEngineAttrs : List String :=
  ["strategy", "executor", "client", "symbol", "timeframe", "tf", "params",
   "initial_capital", "lookback", "position_manager", "risk_manager",
   "_running", "_candle_buffer", "_current_candle", "_ws", "_last_signal_time",
   "start", "stop", "_load_history", "_on_trade", "_candle_loop",
   "_evaluate_signals", "_open_position", "_close_position"]

/-- `BotManager.start_bot(bot_id, app_config, api_key, api_secret)` for a
strategy-sourced bot, with the resolved bot record passed directly.
`strategy_registered` stands for `bot.strategy ∈ registry`
(`get_strategy` raises `KeyError` otherwise).  Exception messages are
abstracted to tags.  The `try` block mirrors the source order: strategy
lookup, executor choice (with the live-mode `_PERP` and credential
guards), engine construction (which parses the timeframe), then the
status/auto-start mutation followed by the `engine.on_trade(...)`
attribute lookup; any raise lands in the `except` that stamps the record
with status `error` and returns `False`. -/
def startBot (bot? : Option BotConfig) (strategy_registered : Bool)
    (api_key : String) : Bool × Option BotConfig :=
  match bot? with
  | none => (false, none)
  | some bot =>
    if bot.status = "running" then (false, some bot)
    else if ¬ strategy_registered then
      (false, some { bot with status := "error", error_msg := "KeyError" })
    else
      let liveGuard : Option BotConfig :=
        if bot.paper_mode then none
        else if strContains bot.symbol "_PERP" then
          some { bot with status := "error", error_msg := "PERP live not supported" }
        else if api_key = "" ∨ api_key = "your_api_key_here" then
          some { bot with status := "error", error_msg := "Pionex API Key not configured" }
        else none
      match liveGuard with
      | some errBot => (false, some errBot)
      | none =>
        if ¬ validTimeframes.contains bot.timeframe then
          (false, some { bot with status := "error", error_msg := "ValueError" })
        else
          let bot := { bot with status := "running", error_msg := "", auto_start := true }
          if liveTradingEngineAttrs.contains "on_trade" then
            (true, some bot)
          else
            (false, some { bot with status := "error", error_msg := "AttributeError" })

/-! ### `BotManager.auto_restart_bots` -/

/-- One attempted restart: the bot id, the stagger delay slept before its
start (`3 + 2*i` seconds for enumerate index `i > 0`, none for the
first), and whether the start call returned `True`. -/
structure RestartAttempt where
  bot_id : String
  delay : ℚ
  ok : Bool
  deriving Repr, DecidableEq

/-- The body of the `for i, bot_id in enumerate(to_restart)` loop of
`BotManager.auto_restart_bots`: ids missing from the registry are skipped
(`continue`, before the stagger sleep), every other id is attempted
regardless of earlier outcomes; `start_ok id` stands for the start call
returning `True` (exceptions and `False` results both count as a failed
attempt). -/
def autoRestartFrom (present start_ok : String → Bool) :
    List String → ℕ → List RestartAttempt
  | [], _ => []
  | bot_id :: rest, i =>
    if present bot_id then
      { bot_id := bot_id
        delay := if i > 0 then 3 + (i : ℚ) * 2 else 0
        ok := start_ok bot_id } :: autoRestartFrom present start_ok rest (i + 1)
    else
      autoRestartFrom present start_ok rest (i + 1)

/-- `BotManager.auto_restart_bots`: runs the queue and records each present
bot's outcome in the `restarted` or `failed` list (the source returns
`restarted` and logs `failed`; both lists are built). -/
def autoRestartBots (queue : List String) (present start_ok : String → Bool) :
    List String × List String :=
  let attempts := autoRestartFrom present start_ok queue 0
  ((attempts.filter (fun a => a.ok)).map (fun a => a.bot_id),
   (attempts.filter (fun a => !a.ok)).map (fun a => a.bot_id))

/-! ## Theorems -/

/-- C2: `RiskManager.update(currentCapital)` raises the peak when
`currentCapital > peak` (the new peak is the max of the two), computes
`drawdown = (1 - currentCapital/peak) * 100` against the new peak, and
ends halted exactly when it was already halted or that drawdown reaches
`maxDrawdownPct`; `reset` clears the halt and restores the initial peak.
On the capital sequence `[10000 (initial), 12000, 9000]` the manager
halts with `maxDrawdownPct = 20` (drawdown 25%) and does not halt with
`maxDrawdownPct = 30`. -/
theorem riskManager_drawdown_halt (rm : RiskManager) (c : ℚ)
    (_hpeak : 0 < rm.peak_capital) :
    ((rm.update c).peak_capital = max rm.peak_capital c
      ∧ (rm.update c).should_halt
          = (rm.halted
              || decide ((1 - c / max rm.peak_capital c) * 100 ≥ rm.config.max_drawdown_pct))
      ∧ rm.reset.should_halt = false
      ∧ rm.reset.peak_capital = rm.initial_capital)
    ∧ (((RiskManager.mk' { max_drawdown_pct := 20 } 10000).update 12000).update
        9000).should_halt = true
    ∧ (((RiskManager.mk' { max_drawdown_pct := 30 } 10000).update 12000).update
        9000).should_halt = false := by
  refine ⟨⟨?_, ?_, rfl, rfl⟩,
    by norm_num [RiskManager.mk', RiskManager.update, RiskManager.should_halt],
    by norm_num [RiskManager.mk', RiskManager.update, RiskManager.should_halt]⟩
  · unfold RiskManager.update
    rcases lt_or_ge rm.peak_capital c with h | h
    · simp only [gt_iff_lt, h, if_true, max_eq_right h.le]
      split <;> rfl
    · simp only [gt_iff_lt, not_lt.mpr h, if_false, max_eq_left h]
      split <;> rfl
  · unfold RiskManager.update RiskManager.should_halt
    rcases lt_or_ge rm.peak_capital c with h | h
    · simp only [gt_iff_lt, h, if_true, max_eq_right h.le]
      split
      · next hdd => simp [ge_iff_le, hdd]
      · next hdd => simp [ge_iff_le, hdd]
    · simp only [gt_iff_lt, not_lt.mpr h, if_false, max_eq_left h]
      split
      · next hdd => simp [ge_iff_le, hdd]
      · next hdd => simp [ge_iff_le, hdd]

/-- Witness for C2: the general part of `riskManager_drawdown_halt`
instantiated at the manager of the spec's example (`maxDrawdownPct = 20`,
initial capital 10000) and `currentCapital = 12000`. -/
theorem riskManager_drawdown_halt_witness :
    (((RiskManager.mk' { max_drawdown_pct := 20 } 10000).update 12000).peak_capital
        = max (RiskManager.mk' { max_drawdown_pct := 20 } 10000).peak_capital 12000
      ∧ ((RiskManager.mk' { max_drawdown_pct := 20 } 10000).update 12000).should_halt
          = ((RiskManager.mk' { max_drawdown_pct := 20 } 10000).halted
              || decide ((1 - 12000 / max (RiskManager.mk' { max_drawdown_pct := 20 }
                    10000).peak_capital 12000) * 100
                  ≥ (RiskManager.mk' { max_drawdown_pct := 20 } 10000).config.max_drawdown_pct))
      ∧ (RiskManager.mk' { max_drawdown_pct := 20 } 10000).reset.should_halt = false
      ∧ (RiskManager.mk' { max_drawdown_pct := 20 } 10000).reset.peak_capital
          = (RiskManager.mk' { max_drawdown_pct := 20 } 10000).initial_capital)
    ∧ (((RiskManager.mk' { max_drawdown_pct := 20 } 10000).update 12000).update
        9000).should_halt = true
    ∧ (((RiskManager.mk' { max_drawdown_pct := 30 } 10000).update 12000).update
        9000).should_halt = false :=
  riskManager_drawdown_halt (RiskManager.mk' { max_drawdown_pct := 20 } 10000) 12000
    (by norm_num [RiskManager.mk'])

/-- C3 counterexample: the claim "`ClosePosition` produces a Trade whose
PnL is `pct = (exit - entry)/entry * 100`" fails as stated, because the
code stores `round(pnl_pct, 2)` in the trade record: closing a long with
entry 3, size 1 at exit 4 records `pnl_pct = 33.33`, not `100/3`. -/
theorem closePosition_exact_pnl_cex :
    (((PositionManager.empty.open_position "BTC_USDT" Side.long 3 1).2.close_position
        "BTC_USDT" 4).1.map PMTrade.pnl_pct) ≠ some ((4 - 3) / 3 * 100) := by
  norm_num [PositionManager.empty, PositionManager.open_position,
    PositionManager.close_position, pyRoundTo]

/-- C3 (amended): for every open position, `ClosePosition(symbol, exitPrice)`
produces a Trade whose PnL is the documented formula — for a long,
`pct = (exit - entry)/entry * 100` and `usd = (exit - entry) * size`; for
a short, the same with the signs inverted — rounded as the code stores it
(half-to-even to 2 decimal places for `pct` and 4 for `usd`). -/
theorem closePosition_pnl_formula (pm : PositionManager) (symbol : String)
    (pos : Position) (exit_price : ℚ) (h : pm.positions symbol = some pos) :
    ((pm.close_position symbol exit_price).1.map PMTrade.pnl_pct
        = some (pyRoundTo 2 (if pos.side = Side.long
            then (exit_price - pos.entry_price) / pos.entry_price * 100
            else (pos.entry_price - exit_price) / pos.entry_price * 100)))
      ∧ ((pm.close_position symbol exit_price).1.map PMTrade.pnl_usd
        = some (pyRoundTo 4 (if pos.side = Side.long
            then (exit_price - pos.entry_price) * pos.size
            else (pos.entry_price - exit_price) * pos.size))) := by
  unfold PositionManager.close_position
  rw [h]
  cases hs : pos.side <;> simp [hs]

/-- Witness for C3: a long opened at entry 100 with size 10 and closed at
110 records `pnl_pct = round((110-100)/100*100, 2)` and
`pnl_usd = round((110-100)*10, 4)`. -/
theorem closePosition_pnl_formula_witness :
    ((((PositionManager.empty.open_position "BTC_USDT" Side.long 100 10).2.close_position
          "BTC_USDT" 110).1.map PMTrade.pnl_pct)
        = some (pyRoundTo 2 ((110 - 100) / 100 * 100)))
      ∧ ((((PositionManager.empty.open_position "BTC_USDT" Side.long 100 10).2.close_position
          "BTC_USDT" 110).1.map PMTrade.pnl_usd)
        = some (pyRoundTo 4 ((110 - 100) * 10))) := by
  have h := closePosition_pnl_formula
    (PositionManager.empty.open_position "BTC_USDT" Side.long 100 10).2 "BTC_USDT"
    { symbol := "BTC_USDT", side := Side.long, entry_price := 100, size := 10 } 110
    (by simp [PositionManager.empty, PositionManager.open_position])
  simpa using h

/-- C4: `OpenPosition` followed by `ClosePosition` on the same symbol clears
the open-position slot and appends exactly one Trade (the returned one) to
the trade history, and `ClosePosition` on a symbol with no open position
returns not-found and leaves the state (position table and trade history)
unchanged. -/
theorem openClose_roundtrip (pm pm' : PositionManager) (symbol sym' : String)
    (side : Side) (entry size exit exit' : ℚ)
    (h : pm'.positions sym' = none) :
    (((pm.open_position symbol side entry size).2.close_position symbol
          exit).2.has_position symbol = false
      ∧ ((pm.open_position symbol side entry size).2.close_position symbol
          exit).1.isSome = true
      ∧ ((pm.open_position symbol side entry size).2.close_position symbol
            exit).2.trade_history
          = pm.trade_history
            ++ ((pm.open_position symbol side entry size).2.close_position symbol
                exit).1.toList)
    ∧ pm'.close_position sym' exit' = (none, pm') := by
  constructor
  · unfold PositionManager.open_position PositionManager.close_position
      PositionManager.has_position
    simp
  · unfold PositionManager.close_position
    rw [h]

/-- Witness for C4: the round trip on an empty manager for `"BTC_USDT"` and
a not-found close on `"ETH_USDT"`. -/
theorem openClose_roundtrip_witness :
    (((PositionManager.empty.open_position "BTC_USDT" Side.long 100 2).2.close_position
          "BTC_USDT" 110).2.has_position "BTC_USDT" = false
      ∧ ((PositionManager.empty.open_position "BTC_USDT" Side.long 100 2).2.close_position
          "BTC_USDT" 110).1.isSome = true
      ∧ ((PositionManager.empty.open_position "BTC_USDT" Side.long 100 2).2.close_position
            "BTC_USDT" 110).2.trade_history
          = PositionManager.empty.trade_history
            ++ ((PositionManager.empty.open_position "BTC_USDT" Side.long 100 2).2.close_position
                "BTC_USDT" 110).1.toList)
    ∧ PositionManager.empty.close_position "ETH_USDT" 5 = (none, PositionManager.empty) :=
  openClose_roundtrip PositionManager.empty PositionManager.empty "BTC_USDT" "ETH_USDT"
    Side.long 100 2 110 5 rfl

/-- C6 counterexample: the claim that a risk-halted loop still closes an
open position "when its own exit condition fires" fails — with the risk
manager halted (capital 10000 → 12000 → 9000 at `maxDrawdownPct = 20`),
a long position whose strategy exit signal is true is NOT closed: the
evaluation step returns before any exit check runs. -/
theorem evaluateSignals_halted_exit_cex :
    evaluateSignals
        (((RiskManager.mk' { max_drawdown_pct := 20 } 10000).update 12000).update 9000)
        200
        (some { symbol := "BTC_USDT", side := Side.long, entry_price := 100, size := 1 })
        { entries_long := false, exits_long := true
          entries_short := false, exits_short := false }
        110
      ≠ EvalAction.closePos := by
  norm_num [RiskManager.mk', RiskManager.update, RiskManager.should_halt, evaluateSignals]
  exact fun h => nomatch h

/-- C6 (amended): whenever `RiskManager.ShouldHalt()` is true, the trading
loop's evaluation step takes no action at all — it neither opens a new
position nor closes an existing one, whatever the strategy signals,
stop-loss or take-profit conditions say; the open position simply remains
open (the evaluation returns before any exit check runs, so exit
conditions are not evaluated while halted). -/
theorem evaluateSignals_halted_noop (rm : RiskManager) (bufferLen : ℕ)
    (pos : Option Position) (signals : Signals) (price : ℚ)
    (h : rm.should_halt = true) :
    evaluateSignals rm bufferLen pos signals price = EvalAction.none := by
  unfold evaluateSignals
  simp [h]

/-- Witness for C6: the halted manager of the drawdown example, a long
position and a firing exit-long signal produce no action. -/
theorem evaluateSignals_halted_noop_witness :
    evaluateSignals
        (((RiskManager.mk' { max_drawdown_pct := 20 } 10000).update 12000).update 9000)
        200
        (some { symbol := "BTC_USDT", side := Side.long, entry_price := 100, size := 1 })
        { entries_long := false, exits_long := true
          entries_short := false, exits_short := false }
        110
      = EvalAction.none :=
  evaluateSignals_halted_noop _ 200 _ _ 110
    (by norm_num [RiskManager.mk', RiskManager.update, RiskManager.should_halt])

/-- C1: for a running webhook bot with an initialized executor, `buy` with a
short open first closes the short — recording exactly one Trade with the
webhook PnL — and then opens a long sized `capital/price` at entry
`price`; `sell` is symmetric on an open long.  In particular, after a
long at entry 100 with size 10 (capital 1000), `sell` at 110 records
exactly one Trade with PnL `+100` and leaves a short with entry 110 and
size `1000/110`. -/
theorem webhook_buy_sell_reversal (bot : BotConfig) (posS posL : WebhookPos)
    (pS pL : ℚ) (hstat : bot.status = "running")
    (hS : posS.side = some Side.short) (hpS : pS ≠ 0)
    (hL : posL.side = some Side.long) (hpL : pL ≠ 0)
    (hlen : bot.trade_history.length < 50) :
    ((executeWebhookSignal bot true posS "buy" (some pS)).1
        = { status := "executed", actions := ["closed_short", "opened_long"] }
      ∧ (executeWebhookSignal bot true posS "buy" (some pS)).2.2
        = { side := some Side.long, entry_price := pS, size := bot.capital / pS }
      ∧ (executeWebhookSignal bot true posS "buy" (some pS)).2.1.total_trades
        = bot.total_trades + 1
      ∧ (executeWebhookSignal bot true posS "buy" (some pS)).2.1.total_pnl
        = bot.total_pnl + calcWebhookPnl posS pS Side.short
      ∧ (executeWebhookSignal bot true posS "buy" (some pS)).2.1.trade_history
        = bot.trade_history
          ++ [{ action := "close_short", price := some pS
                pnl := pyRoundTo 4 (calcWebhookPnl posS pS Side.short) }]
      ∧ (executeWebhookSignal bot true posL "buy" (some pL)).1
        = { status := "executed", actions := ["opened_long"] }
      ∧ (executeWebhookSignal bot true posL "buy" (some pL)).2.1.trade_history
        = bot.trade_history)
    ∧ ((executeWebhookSignal bot true posL "sell" (some pL)).1
        = { status := "executed", actions := ["closed_long", "opened_short"] }
      ∧ (executeWebhookSignal bot true posL "sell" (some pL)).2.2
        = { side := some Side.short, entry_price := pL, size := bot.capital / pL }
      ∧ (executeWebhookSignal bot true posL "sell" (some pL)).2.1.total_trades
        = bot.total_trades + 1
      ∧ (executeWebhookSignal bot true posL "sell" (some pL)).2.1.total_pnl
        = bot.total_pnl + calcWebhookPnl posL pL Side.long
      ∧ (executeWebhookSignal bot true posL "sell" (some pL)).2.1.trade_history
        = bot.trade_history
          ++ [{ action := "close_long", price := some pL
                pnl := pyRoundTo 4 (calcWebhookPnl posL pL Side.long) }])
    ∧ executeWebhookSignal
        { bot_id := "b", capital := 1000, status := "running" } true
        { side := some Side.long, entry_price := 100, size := 10 } "sell" (some 110)
      = ({ status := "executed", actions := ["closed_long", "opened_short"] },
         { bot_id := "b", capital := 1000, status := "running", total_pnl := 100
           total_trades := 1, win_rate := 100
           trade_history := [{ action := "close_long", price := some 110, pnl := 100 }] },
         { side := some Side.short, entry_price := 110, size := 1000 / 110 }) := by
  have hbuy : strStrip (strToLower "buy") = "buy" := by decide
  have hsell : strStrip (strToLower "sell") = "sell" := by decide
  have hne : ("sell" : String) ≠ "buy" := by decide
  have htrim : ∀ t : WebhookTrade, (bot.trade_history ++ [t]).length > 50 ↔ False := by
    intro t
    simp only [List.length_append, List.length_singleton, iff_false, not_lt]
    omega
  refine ⟨?_, ?_, ?_⟩
  · simp only [executeWebhookSignal, hstat, ne_eq, not_true_eq_false, if_false,
      Bool.not_true, hbuy, if_true, hS, hL, reduceIte, recordWebhookTrade, pyOr, hpS,
      htrim]
    simp [hpS]
  · simp only [executeWebhookSignal, hstat, ne_eq, not_true_eq_false, if_false,
      Bool.not_true, hsell, hne, if_true, hL, reduceIte, recordWebhookTrade, pyOr, hpS,
      htrim]
    simp [hpL]
  · simp only [executeWebhookSignal, hsell]
    norm_num [hne, recordWebhookTrade, calcWebhookPnl, pyOr, pyRoundTo, pyInt]

/-- Witness for C1: the spec's own example — capital 1000, open long at
entry 100 with size 10, `sell` at 110 — records one Trade with PnL `+100`
and leaves a short with entry 110 and size `1000/110`. -/
theorem webhook_buy_sell_reversal_witness :
    executeWebhookSignal
        { bot_id := "b", capital := 1000, status := "running" } true
        { side := some Side.long, entry_price := 100, size := 10 } "sell" (some 110)
      = ({ status := "executed", actions := ["closed_long", "opened_short"] },
         { bot_id := "b", capital := 1000, status := "running", total_pnl := 100
           total_trades := 1, win_rate := 100
           trade_history := [{ action := "close_long", price := some 110, pnl := 100 }] },
         { side := some Side.short, entry_price := 110, size := 1000 / 110 }) :=
  (webhook_buy_sell_reversal
      { bot_id := "b", capital := 1000, status := "running" }
      { side := some Side.short, entry_price := 50, size := 20 }
      { side := some Side.long, entry_price := 100, size := 10 }
      200 110 rfl rfl (by norm_num) rfl (by norm_num) (by norm_num)).2.2

/-- C7: in the simulated backend, a market order with the quote balance
short of `cost + fee` (buy) or the base balance short of `size` (sell)
fails and leaves every asset balance unchanged (no partial fills); a
successful order fills at the current price, charges the fixed
proportional fee `cost * 0.0005`, and updates the base-asset and
quote-asset balances together in the same step, touching no other
asset. -/
theorem paperExecutor_market_order (ex : PaperExecutor) (symbol : String)
    (size : ℚ) (base quote a : String) (price cost fee : ℚ)
    (hparse : parseBaseQuote symbol ex.quote_asset = (base, quote))
    (hprice : ex.current_prices symbol = price) (hpos : 0 < price)
    (hcost : cost = size * price) (hfee : fee = cost * (5 / 10000))
    (hbq : base ≠ quote) (haB : a ≠ base) (haQ : a ≠ quote) :
    ((ex.place_market_order symbol "BUY" size).1.toOption.map PaperOrder.price
        = (if ex.balances quote < cost + fee then none else some price))
      ∧ ((ex.place_market_order symbol "BUY" size).1.toOption.map PaperOrder.fee
        = (if ex.balances quote < cost + fee then none else some fee))
      ∧ ((ex.place_market_order symbol "BUY" size).2.balances quote
        = (if ex.balances quote < cost + fee then ex.balances quote
           else ex.balances quote - cost - fee))
      ∧ ((ex.place_market_order symbol "BUY" size).2.balances base
        = (if ex.balances quote < cost + fee then ex.balances base
           else ex.balances base + size))
      ∧ ((ex.place_market_order symbol "BUY" size).2.balances a = ex.balances a)
      ∧ ((ex.place_market_order symbol "SELL" size).1.toOption.map PaperOrder.price
        = (if ex.balances base < size then none else some price))
      ∧ ((ex.place_market_order symbol "SELL" size).1.toOption.map PaperOrder.fee
        = (if ex.balances base < size then none else some fee))
      ∧ ((ex.place_market_order symbol "SELL" size).2.balances base
        = (if ex.balances base < size then ex.balances base
           else ex.balances base - size))
      ∧ ((ex.place_market_order symbol "SELL" size).2.balances quote
        = (if ex.balances base < size then ex.balances quote
           else ex.balances quote + cost - fee))
      ∧ ((ex.place_market_order symbol "SELL" size).2.balances a = ex.balances a) := by
  subst hcost hfee
  have hSB : ("SELL" : String) ≠ "BUY" := by decide
  have hnle : ¬ (ex.current_prices symbol ≤ 0) := by
    rw [hprice]; exact not_le.mpr hpos
  simp only [PaperExecutor.place_market_order, hparse, hprice, if_neg hnle]
  refine ⟨?_, ?_, ?_, ?_, ?_, ?_, ?_, ?_, ?_, ?_⟩ <;>
    split_ifs <;>
      simp_all [Ne.symm hbq, Except.toOption]

/-- Witness for C7: with 10000 USDT, no BTC, and `BTC_USDT` priced at 100,
buying 5 BTC debits `500 + 0.25` USDT and credits 5 BTC in the same call,
while selling 5 BTC (insufficient base balance) fails. -/
theorem paperExecutor_market_order_witness :
    ((((PaperExecutor.mk' 10000 "USDT").set_price "BTC_USDT" 100).place_market_order
        "BTC_USDT" "BUY" 5).2.balances "USDT" = 10000 - 500 - 1 / 4)
    ∧ ((((PaperExecutor.mk' 10000 "USDT").set_price "BTC_USDT" 100).place_market_order
        "BTC_USDT" "BUY" 5).2.balances "BTC" = 0 + 5)
    ∧ ((((PaperExecutor.mk' 10000 "USDT").set_price "BTC_USDT" 100).place_market_order
        "BTC_USDT" "SELL" 5).1.toOption.map PaperOrder.price = none) := by
  have h := paperExecutor_market_order
    ((PaperExecutor.mk' 10000 "USDT").set_price "BTC_USDT" 100) "BTC_USDT" 5
    "BTC" "USDT" "ETH" 100 500 (1 / 4)
    (by decide)
    (by norm_num [PaperExecutor.mk', PaperExecutor.set_price])
    (by norm_num) (by norm_num) (by norm_num)
    (by decide) (by decide) (by decide)
  refine ⟨?_, ?_, ?_⟩
  · have h3 := h.2.2.1
    rw [if_neg (by norm_num [PaperExecutor.mk', PaperExecutor.set_price])] at h3
    exact h3
  · have h4 := h.2.2.2.1
    rw [if_neg (by norm_num [PaperExecutor.mk', PaperExecutor.set_price])] at h4
    rw [h4]
    simp [PaperExecutor.mk', PaperExecutor.set_price]
  · have h6 := h.2.2.2.2.2.1
    rw [if_pos (by simp [PaperExecutor.mk', PaperExecutor.set_price])] at h6
    exact h6

/-- C5 (code bug): starting a stopped paper-mode strategy bot with a
registered strategy and a valid timeframe does NOT succeed — after
setting the record to `running` with `auto_start = true`, `start_bot`
calls `engine.on_trade(...)`, but `LiveTradingEngine` defines no
`on_trade` attribute, so the `AttributeError` lands in the `except`
handler: the call returns `False` and the bot ends in status `error`
(with `auto_start` left `true`).  The claimed transition to `running`
with a registered trade callback never completes. -/
theorem startBot_always_errors :
    startBot
        (some { bot_id := "b1", strategy := "rsi", symbol := "BTC_USDT"
                timeframe := "1h", capital := 1000, paper_mode := true
                status := "stopped" })
        true ""
      = (false,
         some { bot_id := "b1", strategy := "rsi", symbol := "BTC_USDT"
                timeframe := "1h", capital := 1000, paper_mode := true
                status := "error", error_msg := "AttributeError"
                auto_start := true })
    ∧ liveTradingEngineAttrs.contains "on_trade" = false := by
  constructor
  · simp [startBot, validTimeframes, liveTradingEngineAttrs]
  · decide

/-- C8: the auto-restart queue attempts every present bot in order no
matter which starts fail (the attempted ids are exactly the present ids,
independent of the start outcomes); with four queued bots the stagger
delays slept before the four starts are exactly 0, 5, 7, 9 seconds
(`3 + 2*i` for index `i ≥ 1`); and each outcome is recorded
independently: with bot 2 of four failing, `restarted = [b1, b3, b4]`
and `failed = [b2]`. -/
theorem autoRestart_stagger_and_isolation (queue : List String)
    (present start_ok : String → Bool) (a b c d : String) :
    ((autoRestartFrom present start_ok queue 0).map RestartAttempt.bot_id
        = queue.filter present)
    ∧ ((autoRestartFrom (fun _ => true) start_ok [a, b, c, d] 0).map
        RestartAttempt.delay = [0, 5, 7, 9])
    ∧ autoRestartBots ["b1", "b2", "b3", "b4"] (fun _ => true) (fun x => x != "b2")
        = (["b1", "b3", "b4"], ["b2"]) := by
  refine ⟨?_, ?_, by decide⟩
  · have aux : ∀ (q : List String) (i : ℕ),
        (autoRestartFrom present start_ok q i).map RestartAttempt.bot_id
          = q.filter present := by
      intro q
      induction q with
      | nil => intro i; rfl
      | cons x rest ih =>
        intro i
        unfold autoRestartFrom
        by_cases h : present x <;> simp [h, ih]
    exact aux queue 0
  · simp [autoRestartFrom]
    norm_num

/-- C8 witness: the general conjuncts instantiated — a queue of four
present bots `["b1", "b2", "b3", "b4"]` where only `"b2"` fails. -/
theorem autoRestart_stagger_and_isolation_witness :
    ((autoRestartFrom (fun _ => true) (fun x => x != "b2") ["b1", "b2", "b3", "b4"] 0).map
        RestartAttempt.bot_id = ["b1", "b2", "b3", "b4"].filter (fun _ => true))
    ∧ ((autoRestartFrom (fun _ => true) (fun x => x != "b2") ["b1", "b2", "b3", "b4"] 0).map
        RestartAttempt.delay = [0, 5, 7, 9])
    ∧ autoRestartBots ["b1", "b2", "b3", "b4"] (fun _ => true) (fun x => x != "b2")
        = (["b1", "b3", "b4"], ["b2"]) :=
  autoRestart_stagger_and_isolation ["b1", "b2", "b3", "b4"] (fun _ => true)
    (fun x => x != "b2") "b1" "b2" "b3" "b4"

/-- A registry with one stopped bot `"b1"` owned by `"alice"` and one
unowned stopped bot `"b2"`. -/
def sampleRegistry : BotRegistry :=
  ⟨fun b =>
    if b = "b1" then some { bot_id := "b1", user_id := "alice" }
    else if b = "b2" then some { bot_id := "b2" } else none⟩

/-- C9 counterexample: the rejection of a cross-tenant mutation is NOT
distinct from "not found" — caller `"bob"` deleting or updating
`"alice"`'s existing bot `"b1"` gets exactly the same result (`False` /
`None`) as for the nonexistent id `"nosuch"`. -/
theorem crud_ownership_indistinct_cex :
    ((sampleRegistry.bots "b1").isSome = true
      ∧ sampleRegistry.bots "nosuch" = none)
    ∧ (sampleRegistry.delete_bot "b1" "bob").1 = (sampleRegistry.delete_bot "nosuch" "bob").1
    ∧ (sampleRegistry.update_bot "b1" "bob" []).1
        = (sampleRegistry.update_bot "nosuch" "bob" []).1 := by
  refine ⟨⟨?_, ?_⟩, ?_, ?_⟩ <;>
    simp [sampleRegistry, BotRegistry.delete_bot, BotRegistry.update_bot, ownershipMismatch]

/-- C9 (amended): an ownership mismatch on `UpdateBot`/`DeleteBot` is
rejected, but with the very same result as "not found" (`False` for
delete, `None` for update, state unchanged in both cases): the rejection
is indistinguishable from the bot not existing. -/
theorem crud_ownership_rejects_like_not_found (st : BotRegistry) (bot : BotConfig)
    (bot_id caller missing_id : String) (updates : List BotUpdate)
    (hbot : st.bots bot_id = some bot)
    (hmiss : st.bots missing_id = none)
    (hown : ownershipMismatch caller bot.user_id = true) :
    st.delete_bot bot_id caller = (false, st)
    ∧ st.update_bot bot_id caller updates = (none, st)
    ∧ st.delete_bot missing_id caller = (false, st)
    ∧ st.update_bot missing_id caller updates = (none, st) := by
  unfold BotRegistry.delete_bot BotRegistry.update_bot
  rw [hbot, hmiss]
  simp [hown]

/-- Witness for C9: caller `"bob"` against `"alice"`'s bot `"b1"` and the
missing id `"nosuch"` in the sample registry. -/
theorem crud_ownership_rejects_like_not_found_witness :
    sampleRegistry.delete_bot "b1" "bob" = (false, sampleRegistry)
    ∧ sampleRegistry.update_bot "b1" "bob" [] = (none, sampleRegistry)
    ∧ sampleRegistry.delete_bot "nosuch" "bob" = (false, sampleRegistry)
    ∧ sampleRegistry.update_bot "nosuch" "bob" [] = (none, sampleRegistry) :=
  crud_ownership_rejects_like_not_found sampleRegistry
    { bot_id := "b1", user_id := "alice" } "b1" "bob" "nosuch" []
    (by simp [sampleRegistry]) (by simp [sampleRegistry]) (by decide)

/-- C10: for a bot whose owner id is empty, the ownership guard passes for
every caller: `get_bot` returns the bot, `stop_bot` succeeds, and (when
the bot is not running) `update_bot` and `delete_bot` succeed too — no
operation rejects an unowned bot for ownership, whoever calls. -/
theorem unowned_bot_open_to_all (st : BotRegistry) (bot : BotConfig)
    (bot_id caller : String) (updates : List BotUpdate)
    (hbot : st.bots bot_id = some bot)
    (hun : bot.user_id = "")
    (hstopped : bot.status ≠ "running") :
    ownershipMismatch caller bot.user_id = false
    ∧ st.get_bot bot_id caller = some bot
    ∧ (st.delete_bot bot_id caller).1 = true
    ∧ (st.update_bot bot_id caller updates).1 = some (updates.foldl applyBotUpdate bot)
    ∧ (st.stop_bot bot_id caller).1 = true := by
  have hmm : ownershipMismatch caller bot.user_id = false := by
    simp [ownershipMismatch, hun]
  refine ⟨hmm, ?_, ?_, ?_, ?_⟩ <;>
    simp [BotRegistry.get_bot, BotRegistry.delete_bot, BotRegistry.update_bot,
      BotRegistry.stop_bot, hbot, hmm, hstopped]

/-- Witness for C10: any caller (here `"bob"`) can read, delete, update and
stop the unowned stopped bot `"b2"` of the sample registry. -/
theorem unowned_bot_open_to_all_witness :
    ownershipMismatch "bob" ({ bot_id := "b2" } : BotConfig).user_id = false
    ∧ sampleRegistry.get_bot "b2" "bob" = some { bot_id := "b2" }
    ∧ (sampleRegistry.delete_bot "b2" "bob").1 = true
    ∧ (sampleRegistry.update_bot "b2" "bob" []).1
        = some ([].foldl applyBotUpdate { bot_id := "b2" })
    ∧ (sampleRegistry.stop_bot "b2" "bob").1 = true :=
  unowned_bot_open_to_all sampleRegistry { bot_id := "b2" } "b2" "bob" []
    (by simp [sampleRegistry]) rfl (by decide)

end TradeEngine
